import Mathlib

/-!
Formal model of `sample_databricks_app/app.py`: an employee-sales reporting
dashboard that takes a date range, builds one SQL aggregation query over a
warehouse, and renders the result rows as summary metrics, a table and two
bar charts.  Monetary amounts are modelled as exact rationals, dates as
year/month/day triples, and the per-render pipeline as a pure function of
its inputs.
-/

set_option maxRecDepth 100000

namespace BikeSales

/-- A calendar date, as produced by the `st.sidebar.date_input` pickers. -/
structure Date where
  year : Nat
  month : Nat
  day : Nat
deriving DecidableEq

/-- Numeric encoding of a date.  For in-range dates this agrees with the
chronological order and with the lexicographic order of the `YYYY-MM-DD`
strings that the SQL `BETWEEN` filter compares. -/
def Date.code (d : Date) : Nat := d.year * 10000 + d.month * 100 + d.day

/-- The decimal digit character for `n % 10`. -/
def digitChar (n : Nat) : Char := Char.ofNat (48 + n % 10)

/-- Two-digit zero-padded rendering, as `strftime` field `%m` / `%d`. -/
def fmt2 (n : Nat) : List Char := [digitChar (n / 10), digitChar n]

/-- Four-digit zero-padded rendering, as `strftime` field `%Y`. -/
def fmt4 (n : Nat) : List Char :=
  [digitChar (n / 1000), digitChar (n / 100), digitChar (n / 10), digitChar n]

/-- `d.strftime('%Y-%m-%d')` (app.py lines 39-40). -/
def Date.strftime (d : Date) : String :=
  String.mk (fmt4 d.year ++ ['-'] ++ fmt2 d.month ++ ['-'] ++ fmt2 d.day)

/-- The literal template text before the first interpolated date
(app.py lines 43-58). -/
def queryHead : String :=
  "\nSELECT \n    e.EMPLOYEEID,\n    e.NAME_FIRST,\n    e.NAME_LAST,\n    e.NAME_FIRST || ' ' || e.NAME_LAST as FULL_NAME,\n    COUNT(DISTINCT so.SALESORDERID) as ORDER_COUNT,\n    SUM(so.NETAMOUNT) as TOTAL_SALES,\n    SUM(so.GROSSAMOUNT) as TOTAL_GROSS,\n    SUM(so.TAXAMOUNT) as TOTAL_TAX,\n    AVG(so.NETAMOUNT) as AVERAGE_ORDER_VALUE,\n    MIN(so.CREATEDAT) as FIRST_ORDER_DATE,\n    MAX(so.CREATEDAT) as LAST_ORDER_DATE\nFROM skato.bikes_sales_content.employees e\nLEFT JOIN skato.bikes_sales_content.salesorders so ON e.EMPLOYEEID = so.CREATEDBY\nWHERE so.CREATEDAT BETWEEN '"

/-- The literal template text between the two interpolated dates (line 58). -/
def queryMid : String := "' AND '"

/-- The literal template text after the second interpolated date
(app.py lines 58-61). -/
def queryTail : String :=
  "'\nGROUP BY e.EMPLOYEEID, e.NAME_FIRST, e.NAME_LAST\nORDER BY TOTAL_SALES DESC\n"

/-- The f-string `employee_sales_query` (app.py lines 43-61): the fixed
aggregation template with the two date strings interpolated. -/
def employee_sales_query (start_date_str end_date_str : String) : String :=
  queryHead ++ start_date_str ++ queryMid ++ end_date_str ++ queryTail

/-- Does `pat` occur at the head of the second list? -/
def leadsWith : List Char → List Char → Bool
  | [], _ => true
  | _ :: _, [] => false
  | p :: ps, c :: cs => p == c && leadsWith ps cs

/-- Does `pat` occur anywhere in the second list? -/
def listHasSub (pat : List Char) : List Char → Bool
  | [] => leadsWith pat []
  | c :: rest => leadsWith pat (c :: rest) || listHasSub pat rest

/-- Does the string `pat` occur as a contiguous substring of `s`? -/
def hasSub (s pat : String) : Bool := listHasSub pat.data s.data

/-- `s` is a ten-character `YYYY-MM-DD` string: four digits, a dash,
two digits, a dash, two digits. -/
def isYMDFormat (s : String) : Bool :=
  match s.data with
  | [y1, y2, y3, y4, h1, m1, m2, h2, d1, d2] =>
      y1.isDigit && y2.isDigit && y3.isDigit && y4.isDigit &&
      h1 == '-' && h2 == '-' && m1.isDigit && m2.isDigit && d1.isDigit && d2.isDigit
  | _ => false

/-- The aggregation select/from/join part of the template: one output row per
employee group, with the distinct-order count, the net/gross/tax sums, the
mean net amount and the min/max order timestamps. -/
def querySelectText : String :=
  "\nSELECT \n    e.EMPLOYEEID,\n    e.NAME_FIRST,\n    e.NAME_LAST,\n    e.NAME_FIRST || ' ' || e.NAME_LAST as FULL_NAME,\n    COUNT(DISTINCT so.SALESORDERID) as ORDER_COUNT,\n    SUM(so.NETAMOUNT) as TOTAL_SALES,\n    SUM(so.GROSSAMOUNT) as TOTAL_GROSS,\n    SUM(so.TAXAMOUNT) as TOTAL_TAX,\n    AVG(so.NETAMOUNT) as AVERAGE_ORDER_VALUE,\n    MIN(so.CREATEDAT) as FIRST_ORDER_DATE,\n    MAX(so.CREATEDAT) as LAST_ORDER_DATE\nFROM skato.bikes_sales_content.employees e\nLEFT JOIN skato.bikes_sales_content.salesorders so ON e.EMPLOYEEID = so.CREATEDBY\n"

/-- The grouping clause of the template. -/
def queryGroupText : String := "GROUP BY e.EMPLOYEEID, e.NAME_FIRST, e.NAME_LAST\n"

/-- The ordering clause of the template. -/
def queryOrderText : String := "ORDER BY TOTAL_SALES DESC\n"

/-- One result row of the aggregation query: one entry per employee, with
the columns named in the `SELECT` list.  Monetary amounts are exact
rationals, timestamps are dates. -/
structure SalesRow where
  EMPLOYEEID : Nat
  NAME_FIRST : String
  NAME_LAST : String
  FULL_NAME : String
  ORDER_COUNT : Nat
  TOTAL_SALES : ℚ
  TOTAL_GROSS : ℚ
  TOTAL_TAX : ℚ
  AVERAGE_ORDER_VALUE : ℚ
  FIRST_ORDER_DATE : Date
  LAST_ORDER_DATE : Date
deriving DecidableEq

/-- `pandas.Series.sum`: left fold of addition starting from `0`. -/
def pdSum (xs : List ℚ) : ℚ := xs.foldl (· + ·) 0

/-- `pandas.Series.sum` over an integer column. -/
def pdSumNat (xs : List Nat) : Nat := xs.foldl (· + ·) 0

/-- `pandas.Series.mean`; the app only applies it on the non-empty branch. -/
def pdMean (xs : List ℚ) : ℚ := pdSum xs / (xs.length : ℚ)

/-- Round a rational to the nearest integer, ties to even — the rounding that
Python `format(x, '.2f')` applies to the scaled value. -/
def roundHalfEven (q : ℚ) : ℤ :=
  if q - ⌊q⌋ < 1/2 then ⌊q⌋
  else if 1/2 < q - ⌊q⌋ then ⌊q⌋ + 1
  else if ⌊q⌋ % 2 = 0 then ⌊q⌋ else ⌊q⌋ + 1

/-- Insert a thousands separator after every third character of a reversed
digit string. -/
def groupRev : List Char → List Char
  | [] => []
  | [a] => [a]
  | [a, b] => [a, b]
  | [a, b, c] => [a, b, c]
  | a :: b :: c :: d :: rest => a :: b :: c :: ',' :: groupRev (d :: rest)

/-- Python `f"{n:,}"` on a natural number: decimal digits with thousands
separators. -/
def commaGroup (n : Nat) : String :=
  String.mk ((groupRev (toString n).data.reverse).reverse)

/-- Python `f"{x:,.2f}"`: fixed two-decimal rendering with thousands
separators, rounding half to even. -/
def formatFixed2 (x : ℚ) : String :=
  let cents := roundHalfEven (x * 100)
  (if cents < 0 then "-" else "") ++
    commaGroup (cents.natAbs / 100) ++ "." ++ String.mk (fmt2 (cents.natAbs % 100))

/-- The currency formatting `f"${x:,.2f}"` applied by the app to every
monetary value (app.py lines 79, 87, 94-97). -/
def formatCurrency (x : ℚ) : String := "$" ++ formatFixed2 x

/-- `total_sales = sales_data['TOTAL_SALES'].sum()` (line 78). -/
def total_sales (sales_data : List SalesRow) : ℚ :=
  pdSum (sales_data.map (·.TOTAL_SALES))

/-- `total_orders = sales_data['ORDER_COUNT'].sum()` (line 82). -/
def total_orders (sales_data : List SalesRow) : Nat :=
  pdSumNat (sales_data.map (·.ORDER_COUNT))

/-- `avg_order_value = sales_data['AVERAGE_ORDER_VALUE'].mean()` (line 86). -/
def avg_order_value (sales_data : List SalesRow) : ℚ :=
  pdMean (sales_data.map (·.AVERAGE_ORDER_VALUE))

/-- One row of the displayed table, in the column order of line 114:
employee id, full name, order count, the four formatted currency columns,
and the first/last order dates. -/
structure DisplayRow where
  employeeId : Nat
  fullName : String
  orderCount : Nat
  netSalesText : String
  grossSalesText : String
  taxText : String
  avgOrderValueText : String
  firstOrderDate : Date
  lastOrderDate : Date
deriving DecidableEq

/-- Lines 93-116: format the four currency columns of a row and select the
display columns under their renamed Japanese headers. -/
def displayRowOf (r : SalesRow) : DisplayRow :=
  { employeeId := r.EMPLOYEEID
    fullName := r.FULL_NAME
    orderCount := r.ORDER_COUNT
    netSalesText := formatCurrency r.TOTAL_SALES
    grossSalesText := formatCurrency r.TOTAL_GROSS
    taxText := formatCurrency r.TOTAL_TAX
    avgOrderValueText := formatCurrency r.AVERAGE_ORDER_VALUE
    firstOrderDate := r.FIRST_ORDER_DATE
    lastOrderDate := r.LAST_ORDER_DATE }

/-- Everything the non-empty branch (lines 69-132) puts on the page. -/
structure RenderOutput where
  periodLabel : String
  employeeCount : Nat
  totalSalesText : String
  totalOrdersText : String
  avgOrderValueText : String
  tableRows : List DisplayRow
  salesChart : List (String × ℚ)
  ordersChart : List (String × Nat)
deriving DecidableEq

/-- The non-empty branch of the render (app.py lines 69-132): summary
metrics, formatted table, and the two top-10 bar charts keyed by full
name. -/
def renderBody (start_date_str end_date_str : String)
    (sales_data : List SalesRow) : RenderOutput :=
  let top_10 := sales_data.take 10
  { periodLabel := "期間: " ++ start_date_str ++ " ～ " ++ end_date_str
    employeeCount := sales_data.length
    totalSalesText := formatCurrency (total_sales sales_data)
    totalOrdersText := commaGroup (total_orders sales_data)
    avgOrderValueText := formatCurrency (avg_order_value sales_data)
    tableRows := sales_data.map displayRowOf
    salesChart := top_10.map (fun r => (r.FULL_NAME, r.TOTAL_SALES))
    ordersChart := top_10.map (fun r => (r.FULL_NAME, r.ORDER_COUNT)) }

/-- Warning text of line 135. -/
def noDataMessage : String := "指定された期間内に売上データが見つかりませんでした。"

/-- Error text of line 138: a fixed leader followed by `str(e)`. -/
def errorMessageOf (e : String) : String :=
  "データの取得中にエラーが発生しました: " ++ e

/-- Static hint text of line 139. -/
def hintMessage : String := "データベースへの接続またはクエリの実行に問題がある可能性があります。"

/-- How one render cycle ends: the rendered page, the no-data warning, or
the inline error display (error text, hint text). -/
inductive RenderState where
  | rendered : RenderOutput → RenderState
  | emptyWarning : String → RenderState
  | errorDisplayed : String → String → RenderState
deriving DecidableEq

/-- What the body of the `try` block decides to show. -/
inductive BodyOutcome where
  | warned : BodyOutcome
  | shown : RenderOutput → BodyOutcome
deriving DecidableEq

/-- The body of the `try` block (lines 64-135): obtain the query result,
then either warn on an empty result set or build the page.  Any error of
any stage propagates out of the block. -/
def renderTry (start_date_str end_date_str : String)
    (queryResult : Except String (List SalesRow)) : Except String BodyOutcome := do
  let sales_data ← queryResult
  if sales_data.isEmpty then
    return BodyOutcome.warned
  else
    return BodyOutcome.shown (renderBody start_date_str end_date_str sales_data)

/-- One full render cycle (lines 63-139): run the `try` block and catch any
propagated error, displaying it inline with the static hint. -/
def renderCycle (start_date_str end_date_str : String)
    (queryResult : Except String (List SalesRow)) : RenderState :=
  match renderTry start_date_str end_date_str queryResult with
  | Except.error e => RenderState.errorDisplayed (errorMessageOf e) hintMessage
  | Except.ok BodyOutcome.warned => RenderState.emptyWarning noDataMessage
  | Except.ok (BodyOutcome.shown out) => RenderState.rendered out

/-- The generic authentication failure raised by the warehouse client when
the connection is attempted without a usable token. -/
def authErrorText : String := "Invalid access token"

/-- Modelled from the spec: the body of `sql_query_with_user_token`
(app.py lines 15-24) delegates to the vendor client `sql.connect`, whose
behaviour is not part of this repository.  Per the spec, a missing or
invalid forwarded token deterministically makes the connection attempt fail
with an authentication error; otherwise the single query is executed and
the complete result set is returned as a table. -/
def sql_query_with_user_token (tokenValid : String → Bool)
    (warehouse : String → List SalesRow) (query : String)
    (user_token : Option String) : Except String (List SalesRow) :=
  match user_token with
  | none => Except.error authErrorText
  | some t =>
      if tokenValid t then Except.ok (warehouse query)
      else Except.error authErrorText

/-- An employee record of the `employees` table. -/
structure Employee where
  EMPLOYEEID : Nat
  NAME_FIRST : String
  NAME_LAST : String
deriving DecidableEq

/-- A sales-order record of the `salesorders` table. -/
structure SalesOrder where
  SALESORDERID : Nat
  CREATEDBY : Nat
  NETAMOUNT : ℚ
  GROSSAMOUNT : ℚ
  TAXAMOUNT : ℚ
  CREATEDAT : Date
deriving DecidableEq

/-- The earlier of two dates. -/
def dateMin (a b : Date) : Date := if a.code ≤ b.code then a else b

/-- The later of two dates. -/
def dateMax (a b : Date) : Date := if a.code ≤ b.code then b else a

/-- Modelled from the spec: the `WHERE so.CREATEDAT BETWEEN start AND end`
filter of the query — the warehouse keeps exactly the orders whose creation
timestamp lies in the closed interval `[start, end]`. -/
def keptOrders (orders : List SalesOrder) (startD endD : Date) : List SalesOrder :=
  orders.filter fun o =>
    decide (startD.code ≤ o.CREATEDAT.code) && decide (o.CREATEDAT.code ≤ endD.code)

/-- Modelled from the spec: the aggregate functions of the `SELECT` list
applied to one employee's filtered orders. -/
def aggRow (emp : Employee) (mine : List SalesOrder) : SalesRow :=
  { EMPLOYEEID := emp.EMPLOYEEID
    NAME_FIRST := emp.NAME_FIRST
    NAME_LAST := emp.NAME_LAST
    FULL_NAME := emp.NAME_FIRST ++ " " ++ emp.NAME_LAST
    ORDER_COUNT := ((mine.map (·.SALESORDERID)).dedup).length
    TOTAL_SALES := pdSum (mine.map (·.NETAMOUNT))
    TOTAL_GROSS := pdSum (mine.map (·.GROSSAMOUNT))
    TOTAL_TAX := pdSum (mine.map (·.TAXAMOUNT))
    AVERAGE_ORDER_VALUE := pdMean (mine.map (·.NETAMOUNT))
    FIRST_ORDER_DATE := (mine.map (·.CREATEDAT)).foldl dateMin ⟨9999, 12, 31⟩
    LAST_ORDER_DATE := (mine.map (·.CREATEDAT)).foldl dateMax ⟨1, 1, 1⟩ }

/-- Modelled from the spec: grouping by employee.  The left join followed by
the `WHERE` filter keeps only employees with at least one order in range;
each kept employee contributes one aggregated row. -/
def groupRows (emps : List Employee) (kept : List SalesOrder) : List SalesRow :=
  emps.filterMap fun emp =>
    let mine := kept.filter fun o => o.CREATEDBY == emp.EMPLOYEEID
    if mine.isEmpty then none else some (aggRow emp mine)

/-- Insert a row into a list sorted descending by `TOTAL_SALES`. -/
def insertDesc (r : SalesRow) : List SalesRow → List SalesRow
  | [] => [r]
  | x :: xs =>
      if x.TOTAL_SALES ≤ r.TOTAL_SALES then r :: x :: xs else x :: insertDesc r xs

/-- `ORDER BY TOTAL_SALES DESC` as an insertion sort. -/
def sortDesc (l : List SalesRow) : List SalesRow := l.foldr insertDesc []

/-- Modelled from the spec: the full warehouse-side evaluation of the
aggregation query — filter the orders to the closed date interval, group by
employee, aggregate, and order by total net sales descending. -/
def runWarehouse (emps : List Employee) (orders : List SalesOrder)
    (startD endD : Date) : List SalesRow :=
  sortDesc (groupRows emps (keptOrders orders startD endD))

/-- The request header carrying the forwarded user token (line 31). -/
def tokenHeaderKey : String := "X-Forwarded-Access-Token"

/-- `st.context.headers.get(key)`: the value of the first header with the
given name, if any. -/
def getHeader (headers : List (String × String)) (k : String) : Option String :=
  (headers.find? fun p => p.1 == k).map (·.2)

/-- Everything one render cycle reads: the inbound request headers, the two
picked dates, and the warehouse's response behaviour. -/
structure RenderEnv where
  headers : List (String × String)
  start_date : Date
  end_date : Date
  warehouse : String → Option String → Except String (List SalesRow)

/-- The query string a render with this environment sends (lines 39-61). -/
def builtQuery (env : RenderEnv) : String :=
  employee_sales_query env.start_date.strftime env.end_date.strftime

/-- One full render from an environment (lines 31-139): extract the token
from the headers, build the query, ask the warehouse, and run the render
cycle on the outcome. -/
def fullRender (env : RenderEnv) : RenderState :=
  renderCycle env.start_date.strftime env.end_date.strftime
    (env.warehouse (builtQuery env) (getHeader env.headers tokenHeaderKey))

/-- The assertion message of line 9. -/
def assertMessage : String := "DATABRICKS_WAREHOUSE_ID must be set in app.yaml."

/-- Line 9: `assert os.getenv('DATABRICKS_WAREHOUSE_ID'), ...` — the assert
fails when the variable is unset, and also when it is set to the empty
string, which is falsy in Python. -/
def startupAssert (env : String → Option String) : Except String Unit :=
  match env "DATABRICKS_WAREHOUSE_ID" with
  | none => Except.error assertMessage
  | some v => if v == "" then Except.error assertMessage else Except.ok ()

/-- The whole script: the startup assertion runs first; only when it passes
does the rest of the module (the render) execute. -/
def runApp (env : String → Option String) (renv : RenderEnv) :
    Except String RenderState :=
  match startupAssert env with
  | Except.error m => Except.error m
  | Except.ok _ => Except.ok (fullRender renv)

/-- A pandas cell of a currency column: numeric before formatting, text
after. -/
inductive Cell where
  | num : ℚ → Cell
  | txt : String → Cell
deriving DecidableEq

/-- A row of an in-memory pandas frame; the four currency columns may hold
either raw numbers or formatted strings. -/
structure PdRow where
  EMPLOYEEID : Nat
  NAME_FIRST : String
  NAME_LAST : String
  FULL_NAME : String
  ORDER_COUNT : Nat
  TOTAL_SALES : Cell
  TOTAL_GROSS : Cell
  TOTAL_TAX : Cell
  AVERAGE_ORDER_VALUE : Cell
  FIRST_ORDER_DATE : Date
  LAST_ORDER_DATE : Date
deriving DecidableEq

/-- A pandas data frame: column names plus rows. -/
structure PdFrame where
  columns : List String
  rows : List PdRow
deriving DecidableEq

/-- The column names of the query result frame. -/
def resultColumns : List String :=
  ["EMPLOYEEID", "NAME_FIRST", "NAME_LAST", "FULL_NAME", "ORDER_COUNT",
   "TOTAL_SALES", "TOTAL_GROSS", "TOTAL_TAX", "AVERAGE_ORDER_VALUE",
   "FIRST_ORDER_DATE", "LAST_ORDER_DATE"]

/-- A raw result row as a frame row: all currency cells numeric. -/
def pdRowOf (r : SalesRow) : PdRow :=
  { EMPLOYEEID := r.EMPLOYEEID
    NAME_FIRST := r.NAME_FIRST
    NAME_LAST := r.NAME_LAST
    FULL_NAME := r.FULL_NAME
    ORDER_COUNT := r.ORDER_COUNT
    TOTAL_SALES := Cell.num r.TOTAL_SALES
    TOTAL_GROSS := Cell.num r.TOTAL_GROSS
    TOTAL_TAX := Cell.num r.TOTAL_TAX
    AVERAGE_ORDER_VALUE := Cell.num r.AVERAGE_ORDER_VALUE
    FIRST_ORDER_DATE := r.FIRST_ORDER_DATE
    LAST_ORDER_DATE := r.LAST_ORDER_DATE }

/-- The `sales_data` frame as fetched from the warehouse. -/
def pdFrameOf (rows : List SalesRow) : PdFrame :=
  { columns := resultColumns, rows := rows.map pdRowOf }

/-- The lambda of lines 94-97 applied to one cell: format a numeric cell as
currency text. -/
def applyCurrency (c : Cell) : Cell :=
  match c with
  | Cell.num x => Cell.txt (formatCurrency x)
  | Cell.txt s => Cell.txt s

/-- Line 94: `display_data['TOTAL_SALES'] = ....apply(lambda x: f"${x:,.2f}")`. -/
def fmtSalesCol (f : PdFrame) : PdFrame :=
  { f with rows := f.rows.map fun r => { r with TOTAL_SALES := applyCurrency r.TOTAL_SALES } }

/-- Line 95: the same formatting on `TOTAL_GROSS`. -/
def fmtGrossCol (f : PdFrame) : PdFrame :=
  { f with rows := f.rows.map fun r => { r with TOTAL_GROSS := applyCurrency r.TOTAL_GROSS } }

/-- Line 96: the same formatting on `TOTAL_TAX`. -/
def fmtTaxCol (f : PdFrame) : PdFrame :=
  { f with rows := f.rows.map fun r => { r with TOTAL_TAX := applyCurrency r.TOTAL_TAX } }

/-- Line 97: the same formatting on `AVERAGE_ORDER_VALUE`. -/
def fmtAvgCol (f : PdFrame) : PdFrame :=
  { f with rows := f.rows.map fun r => { r with AVERAGE_ORDER_VALUE := applyCurrency r.AVERAGE_ORDER_VALUE } }

/-- The column renaming of lines 100-110. -/
def renameColumn (c : String) : String :=
  if c == "EMPLOYEEID" then "従業員ID"
  else if c == "FULL_NAME" then "氏名"
  else if c == "ORDER_COUNT" then "注文数"
  else if c == "TOTAL_SALES" then "純売上"
  else if c == "TOTAL_GROSS" then "総売上"
  else if c == "TOTAL_TAX" then "税額"
  else if c == "AVERAGE_ORDER_VALUE" then "平均注文単価"
  else if c == "FIRST_ORDER_DATE" then "初回注文日"
  else if c == "LAST_ORDER_DATE" then "最終注文日"
  else c

/-- `display_data.rename(columns=...)` (lines 100-110). -/
def renameForDisplay (f : PdFrame) : PdFrame :=
  { f with columns := f.columns.map renameColumn }

/-- A heap of live frame objects; a pandas variable is a reference into it. -/
abbrev Heap := List PdFrame

/-- Dereference a frame. -/
def heapGet (h : Heap) (r : Nat) : PdFrame := h.getD r ⟨[], []⟩

/-- Mutate a frame object in place. -/
def heapSet (h : Heap) (r : Nat) (f : PdFrame) : Heap := h.set r f

/-- Lines 93-110 with the object identities explicit:
`display_data = sales_data.copy()` allocates a fresh frame object, and the
four column-formatting assignments and the rename all mutate that fresh
object, never the `sales_data` object. -/
def buildDisplayData (h : Heap) (salesRef : Nat) : Heap × Nat :=
  let dRef := h.length
  let h1 := h ++ [heapGet h salesRef]
  let h2 := heapSet h1 dRef (fmtSalesCol (heapGet h1 dRef))
  let h3 := heapSet h2 dRef (fmtGrossCol (heapGet h2 dRef))
  let h4 := heapSet h3 dRef (fmtTaxCol (heapGet h3 dRef))
  let h5 := heapSet h4 dRef (fmtAvgCol (heapGet h4 dRef))
  let h6 := heapSet h5 dRef (renameForDisplay (heapGet h5 dRef))
  (h6, dRef)

/-- Lines 123-132 run after `buildDisplayData`: both chart series are read
from the `sales_data` object as it stands after the display table was
built. -/
def chartSeriesAfterBuild (rows : List SalesRow) :
    List (String × Cell) × List (String × Nat) :=
  let res := buildDisplayData [pdFrameOf rows] 0
  let sales := heapGet res.1 0
  ((sales.rows.take 10).map fun r => (r.FULL_NAME, r.TOTAL_SALES),
   (sales.rows.take 10).map fun r => (r.FULL_NAME, r.ORDER_COUNT))

/-- A sample result row used to instantiate theorems with hypotheses. -/
def c2row : SalesRow :=
  { EMPLOYEEID := 7
    NAME_FIRST := "Maya"
    NAME_LAST := "Sato"
    FULL_NAME := "Maya Sato"
    ORDER_COUNT := 3
    TOTAL_SALES := 1200
    TOTAL_GROSS := 1350
    TOTAL_TAX := 150
    AVERAGE_ORDER_VALUE := 400
    FIRST_ORDER_DATE := ⟨2023, 1, 5⟩
    LAST_ORDER_DATE := ⟨2023, 3, 9⟩ }

/-- Fifteen result rows, for the chart-selection witness. -/
def c6rows : List SalesRow := List.replicate 15 c2row

/-- A sample employee for the reversed-range witness. -/
def c3emp : Employee := ⟨1, "Ava", "Chen"⟩

/-- A sample order for the reversed-range witness. -/
def c3order : SalesOrder := ⟨100, 1, 10, 12, 2, ⟨2023, 3, 15⟩⟩

/-- A warehouse response function used in the determinism witness. -/
def c8warehouse : String → Option String → Except String (List SalesRow) :=
  fun _ _ => Except.ok []

/-- A render environment whose headers carry the token plus an extra
unrelated header. -/
def c8envA : RenderEnv :=
  { headers := [(tokenHeaderKey, "tok-1"), ("User-Agent", "curl")]
    start_date := ⟨2023, 1, 1⟩
    end_date := ⟨2023, 6, 30⟩
    warehouse := c8warehouse }

/-- A render environment identical to `c8envA` on the token, the dates and
the warehouse, but with different remaining headers. -/
def c8envB : RenderEnv :=
  { headers := [("Accept", "text/html"), (tokenHeaderKey, "tok-1")]
    start_date := ⟨2023, 1, 1⟩
    end_date := ⟨2023, 6, 30⟩
    warehouse := c8warehouse }

/-- A process environment where `DATABRICKS_WAREHOUSE_ID` is present but
set to the empty string. -/
def envPresentEmpty : String → Option String :=
  fun k => if k == "DATABRICKS_WAREHOUSE_ID" then some "" else none

/-- A process environment where `DATABRICKS_WAREHOUSE_ID` is set to a
non-empty identifier. -/
def envWithWarehouse : String → Option String :=
  fun k => if k == "DATABRICKS_WAREHOUSE_ID" then some "warehouse-123" else none

/-- A minimal render environment for the startup witness. -/
def c9renv : RenderEnv :=
  { headers := []
    start_date := ⟨2023, 1, 1⟩
    end_date := ⟨2023, 6, 30⟩
    warehouse := c8warehouse }

theorem digitChar_isDigit (n : Nat) : (digitChar n).isDigit = true := by
  have h : n % 10 < 10 := Nat.mod_lt _ (by norm_num)
  unfold digitChar
  interval_cases h : n % 10 <;> decide

theorem strftime_isYMD (d : Date) : isYMDFormat d.strftime = true := by
  simp [Date.strftime, isYMDFormat, fmt4, fmt2, digitChar_isDigit]

theorem str_append_assoc (a b c : String) : a ++ b ++ c = a ++ (b ++ c) :=
  String.ext (List.append_assoc a.data b.data c.data)

theorem foldl_add_init (init : ℚ) (xs : List ℚ) :
    xs.foldl (· + ·) init = init + xs.sum := by
  induction xs generalizing init with
  | nil => simp
  | cons x xs ih => simp [ih, add_assoc]

theorem foldl_add_init_nat (init : Nat) (xs : List Nat) :
    xs.foldl (· + ·) init = init + xs.sum := by
  induction xs generalizing init with
  | nil => simp
  | cons x xs ih => simp [ih, Nat.add_assoc]

theorem pdSum_eq_sum (xs : List ℚ) : pdSum xs = xs.sum := by
  simp [pdSum, foldl_add_init]

theorem pdSumNat_eq_sum (xs : List Nat) : pdSumNat xs = xs.sum := by
  simp [pdSumNat, foldl_add_init_nat]

/-- C1: for every pair of selected dates, the query string built and sent to
the warehouse is the fixed aggregation template with the two dates formatted
as `YYYY-MM-DD` interpolated as the bounds of the `BETWEEN` filter: it selects
one row per employee group, counts distinct orders, sums net/gross/tax
amounts, takes the mean of the net amount and the min/max order timestamp,
filters on the closed interval `[start, end]` over the order-creation
timestamp, groups by employee and orders by total net sales descending. -/
theorem employee_sales_query_spec (sd ed : Date) :
    employee_sales_query sd.strftime ed.strftime =
      querySelectText ++
        ("WHERE so.CREATEDAT BETWEEN '" ++ sd.strftime ++ "' AND '" ++
          ed.strftime ++ "'\n") ++
        (queryGroupText ++ queryOrderText) ∧
    isYMDFormat sd.strftime = true ∧
    isYMDFormat ed.strftime = true ∧
    hasSub querySelectText "COUNT(DISTINCT so.SALESORDERID) as ORDER_COUNT" = true ∧
    hasSub querySelectText "SUM(so.NETAMOUNT) as TOTAL_SALES" = true ∧
    hasSub querySelectText "SUM(so.GROSSAMOUNT) as TOTAL_GROSS" = true ∧
    hasSub querySelectText "SUM(so.TAXAMOUNT) as TOTAL_TAX" = true ∧
    hasSub querySelectText "AVG(so.NETAMOUNT) as AVERAGE_ORDER_VALUE" = true ∧
    hasSub querySelectText "MIN(so.CREATEDAT) as FIRST_ORDER_DATE" = true ∧
    hasSub querySelectText "MAX(so.CREATEDAT) as LAST_ORDER_DATE" = true ∧
    queryGroupText = "GROUP BY e.EMPLOYEEID, e.NAME_FIRST, e.NAME_LAST\n" ∧
    queryOrderText = "ORDER BY TOTAL_SALES DESC\n" := by
  have h1 : queryHead = querySelectText ++ "WHERE so.CREATEDAT BETWEEN '" := by decide
  have h2 : queryTail = "'\n" ++ (queryGroupText ++ queryOrderText) := by decide
  refine ⟨?_, strftime_isYMD sd, strftime_isYMD ed, ?_, ?_, ?_, ?_, ?_, ?_, ?_, rfl, rfl⟩
  · rw [employee_sales_query, h1, h2]
    simp [str_append_assoc, queryMid]
  all_goals decide

/-- C2: for every non-empty result set, the rendered total-sales metric is
the currency rendering of the exact sum of the `TOTAL_SALES` column, and the
rendered average-order-value metric is the currency rendering of the exact
arithmetic mean of the `AVERAGE_ORDER_VALUE` column, both recomputable
independently from the raw rows. -/
theorem summary_metrics_spec (s e : String) (sales_data : List SalesRow)
    (_h : sales_data ≠ []) :
    total_sales sales_data = (sales_data.map (·.TOTAL_SALES)).sum ∧
    avg_order_value sales_data =
      (sales_data.map (·.AVERAGE_ORDER_VALUE)).sum / (sales_data.length : ℚ) ∧
    (renderBody s e sales_data).totalSalesText =
      formatCurrency ((sales_data.map (·.TOTAL_SALES)).sum) ∧
    (renderBody s e sales_data).avgOrderValueText =
      formatCurrency
        ((sales_data.map (·.AVERAGE_ORDER_VALUE)).sum / (sales_data.length : ℚ)) := by
  refine ⟨pdSum_eq_sum _, ?_, ?_, ?_⟩
  · simp [avg_order_value, pdMean, pdSum_eq_sum, List.length_map]
  · simp [renderBody, total_sales, pdSum_eq_sum]
  · simp [renderBody, avg_order_value, pdMean, pdSum_eq_sum, List.length_map]

theorem summary_metrics_spec_witness :
    [c2row] ≠ [] ∧
    total_sales [c2row] = ([c2row].map (·.TOTAL_SALES)).sum ∧
    avg_order_value [c2row] =
      ([c2row].map (·.AVERAGE_ORDER_VALUE)).sum / (([c2row] : List SalesRow).length : ℚ) ∧
    (renderBody "2023-01-01" "2023-06-30" [c2row]).totalSalesText =
      formatCurrency (([c2row].map (·.TOTAL_SALES)).sum) ∧
    (renderBody "2023-01-01" "2023-06-30" [c2row]).avgOrderValueText =
      formatCurrency
        (([c2row].map (·.AVERAGE_ORDER_VALUE)).sum / (([c2row] : List SalesRow).length : ℚ)) :=
  ⟨by simp, summary_metrics_spec "2023-01-01" "2023-06-30" [c2row] (by simp)⟩

/-- C3: if the start date exceeds the end date, the closed-interval filter
keeps no order, the modelled warehouse returns the empty result set, and the
render takes the empty-result branch and shows the no-data warning — no
crash and no error display. -/
theorem reversed_range_empty_spec (emps : List Employee) (orders : List SalesOrder)
    (startD endD : Date) (h : endD.code < startD.code) :
    runWarehouse emps orders startD endD = [] ∧
    renderCycle startD.strftime endD.strftime
        (Except.ok (runWarehouse emps orders startD endD)) =
      RenderState.emptyWarning noDataMessage := by
  have hkept : keptOrders orders startD endD = [] := by
    apply List.filter_eq_nil_iff.mpr
    intro o _
    simp only [Bool.and_eq_true, decide_eq_true_eq, not_and]
    intro h1
    omega
  have hgroup : groupRows emps [] = [] := by
    apply List.filterMap_eq_nil_iff.mpr
    intro emp _
    rfl
  have hrun : runWarehouse emps orders startD endD = [] := by
    simp only [runWarehouse, hkept, hgroup]
    rfl
  exact ⟨hrun, by rw [hrun]; rfl⟩

theorem reversed_range_empty_spec_witness :
    (⟨2023, 1, 1⟩ : Date).code < (⟨2023, 6, 30⟩ : Date).code ∧
    runWarehouse [c3emp] [c3order] ⟨2023, 6, 30⟩ ⟨2023, 1, 1⟩ = [] ∧
    renderCycle (⟨2023, 6, 30⟩ : Date).strftime (⟨2023, 1, 1⟩ : Date).strftime
        (Except.ok (runWarehouse [c3emp] [c3order] ⟨2023, 6, 30⟩ ⟨2023, 1, 1⟩)) =
      RenderState.emptyWarning noDataMessage :=
  ⟨by decide,
    reversed_range_empty_spec [c3emp] [c3order] ⟨2023, 6, 30⟩ ⟨2023, 1, 1⟩ (by decide)⟩

/-- C4: when the forwarded token is absent or invalid, the connection
attempt fails and the render ends in the error-display state — never in the
empty-result warning state and never in the rendered state. -/
theorem missing_token_error_spec (tokenValid : String → Bool)
    (warehouse : String → List SalesRow) (s e q : String)
    (user_token : Option String)
    (h : user_token = none ∨ ∃ t, user_token = some t ∧ tokenValid t = false) :
    renderCycle s e (sql_query_with_user_token tokenValid warehouse q user_token) =
      RenderState.errorDisplayed (errorMessageOf authErrorText) hintMessage ∧
    (∀ w, renderCycle s e (sql_query_with_user_token tokenValid warehouse q user_token) ≠
      RenderState.emptyWarning w) ∧
    (∀ out, renderCycle s e (sql_query_with_user_token tokenValid warehouse q user_token) ≠
      RenderState.rendered out) := by
  have hq : sql_query_with_user_token tokenValid warehouse q user_token =
      Except.error authErrorText := by
    rcases h with hnone | ⟨t, ht, hbad⟩
    · rw [hnone]
      rfl
    · rw [ht]
      simp [sql_query_with_user_token, hbad]
  refine ⟨?_, ?_, ?_⟩
  · rw [hq]
    rfl
  · intro w hcon
    rw [hq] at hcon
    exact RenderState.noConfusion hcon
  · intro out hcon
    rw [hq] at hcon
    exact RenderState.noConfusion hcon

theorem missing_token_error_spec_witness :
    ((none : Option String) = none ∨
      ∃ t, (none : Option String) = some t ∧ (fun _ => true) t = false) ∧
    renderCycle "2023-01-01" "2023-06-30"
        (sql_query_with_user_token (fun _ => true) (fun _ => []) "q" none) =
      RenderState.errorDisplayed (errorMessageOf authErrorText) hintMessage :=
  ⟨Or.inl rfl,
    (missing_token_error_spec (fun _ => true) (fun _ => [])
      "2023-01-01" "2023-06-30" "q" none (Or.inl rfl)).1⟩

/-- C5: any exception propagating from the pipeline inside the `try` block
is caught: the render displays the fixed error leader followed by the
exception text, together with the static hint, and every render cycle ends
in exactly one of the three terminal states — the process never crashes. -/
theorem broad_catch_spec (s e : String) (qr : Except String (List SalesRow)) :
    (∀ msg, renderTry s e qr = Except.error msg →
      renderCycle s e qr =
        RenderState.errorDisplayed
          ("データの取得中にエラーが発生しました: " ++ msg) hintMessage) ∧
    ((∃ m hh, renderCycle s e qr = RenderState.errorDisplayed m hh) ∨
      renderCycle s e qr = RenderState.emptyWarning noDataMessage ∨
      ∃ out, renderCycle s e qr = RenderState.rendered out) := by
  constructor
  · intro msg hmsg
    unfold renderCycle
    rw [hmsg]
    rfl
  · cases hq : renderTry s e qr with
    | error m =>
        exact Or.inl ⟨errorMessageOf m, hintMessage, by unfold renderCycle; rw [hq]⟩
    | ok b =>
        cases b with
        | warned => exact Or.inr (Or.inl (by unfold renderCycle; rw [hq]))
        | shown out => exact Or.inr (Or.inr ⟨out, by unfold renderCycle; rw [hq]⟩)

theorem broad_catch_spec_witness :
    renderTry "2023-01-01" "2023-06-30" (Except.error "boom") = Except.error "boom" ∧
    renderCycle "2023-01-01" "2023-06-30" (Except.error "boom") =
      RenderState.errorDisplayed
        ("データの取得中にエラーが発生しました: " ++ "boom") hintMessage :=
  ⟨rfl, (broad_catch_spec "2023-01-01" "2023-06-30" (Except.error "boom")).1 "boom" rfl⟩

/-- C6: for every non-empty result set the two bar charts are built from
exactly the first 10 rows — full names paired with `TOTAL_SALES` in one
chart and with `ORDER_COUNT` in the other; with 15 rows each chart has
exactly 10 entries, so rows 11-15 appear in neither chart. -/
theorem charts_top10_spec (s e : String) (sales_data : List SalesRow)
    (_h : sales_data ≠ []) :
    (renderBody s e sales_data).salesChart =
      (sales_data.take 10).map (fun r => (r.FULL_NAME, r.TOTAL_SALES)) ∧
    (renderBody s e sales_data).ordersChart =
      (sales_data.take 10).map (fun r => (r.FULL_NAME, r.ORDER_COUNT)) ∧
    (renderBody s e sales_data).salesChart.length = min 10 sales_data.length ∧
    (renderBody s e sales_data).ordersChart.length = min 10 sales_data.length ∧
    (sales_data.length = 15 →
      (renderBody s e sales_data).salesChart.length = 10 ∧
      (renderBody s e sales_data).ordersChart.length = 10) := by
  refine ⟨rfl, rfl, ?_, ?_, ?_⟩
  · simp [renderBody, List.length_map, List.length_take]
  · simp [renderBody, List.length_map, List.length_take]
  · intro h15
    constructor <;> simp [renderBody, List.length_map, List.length_take, h15]

theorem charts_top10_spec_witness :
    c6rows ≠ [] ∧ c6rows.length = 15 ∧
    (renderBody "2023-01-01" "2023-06-30" c6rows).salesChart.length = 10 ∧
    (renderBody "2023-01-01" "2023-06-30" c6rows).ordersChart.length = 10 :=
  ⟨by decide, by decide,
    (charts_top10_spec "2023-01-01" "2023-06-30" c6rows (by decide)).2.2.2.2 (by decide)⟩

/-- C7: the displayed table formats the four currency columns of every row
with the dollar formatter; a formatted value always consists of a dollar
sign, an integer part with thousands separators, and exactly two decimal
digits; in particular the raw value `1234.5` renders as `"$1,234.50"`. -/
theorem currency_format_spec (s e : String) (sales_data : List SalesRow) :
    (renderBody s e sales_data).tableRows = sales_data.map displayRowOf ∧
    (∀ r : SalesRow,
      (displayRowOf r).netSalesText = formatCurrency r.TOTAL_SALES ∧
      (displayRowOf r).grossSalesText = formatCurrency r.TOTAL_GROSS ∧
      (displayRowOf r).taxText = formatCurrency r.TOTAL_TAX ∧
      (displayRowOf r).avgOrderValueText = formatCurrency r.AVERAGE_ORDER_VALUE) ∧
    (∀ x : ℚ, ∃ intText fracPart, fracPart < 100 ∧
      formatCurrency x = "$" ++ intText ++ "." ++ String.mk (fmt2 fracPart)) ∧
    formatCurrency (1234.5 : ℚ) = "$1,234.50" ∧
    formatCurrency (1234567.891 : ℚ) = "$1,234,567.89" := by
  refine ⟨rfl, fun r => ⟨rfl, rfl, rfl, rfl⟩, ?_, ?_, ?_⟩
  · intro x
    refine ⟨(if roundHalfEven (x * 100) < 0 then "-" else "") ++
        commaGroup ((roundHalfEven (x * 100)).natAbs / 100),
      (roundHalfEven (x * 100)).natAbs % 100, Nat.mod_lt _ (by norm_num), ?_⟩
    simp [formatCurrency, formatFixed2, str_append_assoc]
  · have hr : roundHalfEven ((1234.5 : ℚ) * 100) = 123450 := by
      norm_num [roundHalfEven]
    simp only [formatCurrency, formatFixed2, hr]
    decide
  · have hr : roundHalfEven ((1234567.891 : ℚ) * 100) = 123456789 := by
      norm_num [roundHalfEven]
    simp only [formatCurrency, formatFixed2, hr]
    decide

/-- C8: the render pipeline is deterministic in its inputs — two
environments that agree on the start date, the end date, the extracted
forwarded token, and the warehouse's responses build the identical query
string and end in the identical displayed state, whatever their remaining
headers are. -/
theorem render_deterministic_spec (env1 env2 : RenderEnv)
    (hs : env1.start_date = env2.start_date)
    (he : env1.end_date = env2.end_date)
    (ht : getHeader env1.headers tokenHeaderKey = getHeader env2.headers tokenHeaderKey)
    (hw : ∀ q t, env1.warehouse q t = env2.warehouse q t) :
    builtQuery env1 = builtQuery env2 ∧ fullRender env1 = fullRender env2 := by
  have hquery : builtQuery env1 = builtQuery env2 := by
    rw [builtQuery, builtQuery, hs, he]
  refine ⟨hquery, ?_⟩
  rw [fullRender, fullRender, hw, hquery, ht, hs, he]

theorem render_deterministic_spec_witness :
    c8envA.start_date = c8envB.start_date ∧
    c8envA.end_date = c8envB.end_date ∧
    getHeader c8envA.headers tokenHeaderKey = getHeader c8envB.headers tokenHeaderKey ∧
    builtQuery c8envA = builtQuery c8envB ∧ fullRender c8envA = fullRender c8envB :=
  ⟨rfl, rfl, by decide,
    render_deterministic_spec c8envA c8envB rfl rfl (by decide) (fun _ _ => rfl)⟩

/-- C9 counterexample: with `DATABRICKS_WAREHOUSE_ID` present in the
environment but set to the empty string, the identifier is present yet the
startup assertion still aborts — refuting "when it is present, startup
proceeds" as stated. -/
theorem startup_present_counterexample :
    envPresentEmpty "DATABRICKS_WAREHOUSE_ID" = some "" ∧
    startupAssert envPresentEmpty = Except.error assertMessage ∧
    ∀ renv, runApp envPresentEmpty renv ≠ Except.ok (fullRender renv) := by
  refine ⟨rfl, rfl, ?_⟩
  intro renv hcon
  exact Except.noConfusion hcon

/-- C9 (amended): at startup, before any query logic runs, the program reads
the warehouse identifier from the process environment and aborts when it is
absent or present-but-empty (Python falsiness); startup proceeds to the
render exactly when a non-empty value is present. -/
theorem startup_assert_spec (env : String → Option String) (renv : RenderEnv) :
    (env "DATABRICKS_WAREHOUSE_ID" = none →
      runApp env renv = Except.error assertMessage) ∧
    (env "DATABRICKS_WAREHOUSE_ID" = some "" →
      runApp env renv = Except.error assertMessage) ∧
    (∀ v, env "DATABRICKS_WAREHOUSE_ID" = some v → v ≠ "" →
      runApp env renv = Except.ok (fullRender renv)) := by
  refine ⟨?_, ?_, ?_⟩
  · intro h
    simp [runApp, startupAssert, h]
  · intro h
    simp [runApp, startupAssert, h]
  · intro v hv hne
    simp [runApp, startupAssert, hv, hne]

theorem startup_assert_spec_witness :
    envWithWarehouse "DATABRICKS_WAREHOUSE_ID" = some "warehouse-123" ∧
    "warehouse-123" ≠ "" ∧
    runApp envWithWarehouse c9renv = Except.ok (fullRender c9renv) :=
  ⟨rfl, by decide,
    (startup_assert_spec envWithWarehouse c9renv).2.2 "warehouse-123" rfl (by decide)⟩

/-- C10: the currency formatting and column renaming mutate only the copied
`display_data` object: after the display table is built, the `sales_data`
frame is unchanged — numeric cells, original column names — and the two
chart series built afterwards read the raw numeric values of the original
rows, never the formatted strings. -/
theorem display_copy_frame_spec (rows : List SalesRow) :
    heapGet (buildDisplayData [pdFrameOf rows] 0).1 0 = pdFrameOf rows ∧
    (buildDisplayData [pdFrameOf rows] 0).2 = 1 ∧
    heapGet (buildDisplayData [pdFrameOf rows] 0).1 1 =
      renameForDisplay (fmtAvgCol (fmtTaxCol (fmtGrossCol (fmtSalesCol (pdFrameOf rows))))) ∧
    (chartSeriesAfterBuild rows).1 =
      (rows.take 10).map (fun r => (r.FULL_NAME, Cell.num r.TOTAL_SALES)) ∧
    (chartSeriesAfterBuild rows).2 =
      (rows.take 10).map (fun r => (r.FULL_NAME, r.ORDER_COUNT)) := by
  refine ⟨rfl, rfl, rfl, ?_, ?_⟩
  · show ((rows.map pdRowOf).take 10).map (fun r => (r.FULL_NAME, r.TOTAL_SALES)) = _
    rw [← List.map_take, List.map_map]
    rfl
  · show ((rows.map pdRowOf).take 10).map (fun r => (r.FULL_NAME, r.ORDER_COUNT)) = _
    rw [← List.map_take, List.map_map]
    rfl

end BikeSales
